import Mathlib

/-!
Verification of the csv-to-test-report pipeline: a shallow embedding of
validator.py (validate_csv), engine.py (evaluate) and pdf_report.py
(build_pdf_report), with theorems checking the documented contracts.

Numbers held in data-frame cells are modelled as rationals; a missing
(NaN) entry is an explicit constructor, since NaN ordering comparisons
are false and that is visible to the evaluator.
-/

/-- A value held in a numeric data-frame column: either an actual number
(modelled as a rational) or NaN, which pandas puts in a numeric column
for an empty CSV cell. -/
inductive PdNum where
  | nan : PdNum
  | val : ℚ → PdNum
deriving DecidableEq

/-- Ordering comparison on numeric cells, as pandas/NumPy evaluate
`value >= lower_limit` elementwise: any comparison involving NaN is
false. -/
def PdNum.le : PdNum → PdNum → Bool
  | PdNum.val a, PdNum.val b => decide (a ≤ b)
  | _, _ => false

/-- One measurement row of a validated table (the columns validate_csv
guarantees, plus the optional unit column). -/
structure Row where
  sample_id : String
  test_name : String
  value : PdNum
  lower_limit : PdNum
  upper_limit : PdNum
  unit : String
deriving DecidableEq

/-- engine.py, evaluate, lines 4-9: the per-row status. The boolean
column `(value >= lower_limit) & (value <= upper_limit)` is mapped
through the dictionary True -> PASS, False -> FAIL. -/
def rowStatus (r : Row) : String :=
  if PdNum.le r.lower_limit r.value && PdNum.le r.value r.upper_limit then "PASS" else "FAIL"

/-- A row of the evaluated table: the input row with the added status
column. -/
structure EvalRow extends Row where
  status : String
deriving DecidableEq

/-- The evaluated table: each input row augmented with its status. -/
def evalRows (rows : List Row) : List EvalRow :=
  rows.map (fun r => { toRow := r, status := rowStatus r })

/-- Round to the nearest integer, ties to even: the rounding of Python
round() on the exact rational value. -/
def roundHalfEven (q : ℚ) : ℤ :=
  if q - ⌊q⌋ < 1 / 2 then ⌊q⌋
  else if q - ⌊q⌋ > 1 / 2 then ⌊q⌋ + 1
  else if ⌊q⌋ % 2 = 0 then ⌊q⌋ else ⌊q⌋ + 1

/-- Python round(x, 2): round to two decimal places, ties to even. -/
def round2 (q : ℚ) : ℚ := (roundHalfEven (q * 100) : ℚ) / 100

/-- engine.py, evaluate, lines 11-23: the summary dictionary. -/
structure Summary where
  total : ℕ
  pass_count : ℕ
  fail_count : ℕ
  pass_rate : ℚ
  overall_verdict : String
deriving DecidableEq

/-- The summary computed from an evaluated table: total row count, counts
of the PASS and FAIL statuses, the rounded pass rate, and the overall
verdict. Meaningful only for a non-empty table; evaluate guards the
division. -/
def mkSummary (ers : List EvalRow) : Summary :=
  let total := ers.length
  let pc := (ers.filter (fun er => er.status == "PASS")).length
  let fc := (ers.filter (fun er => er.status == "FAIL")).length
  { total := total
    pass_count := pc
    fail_count := fc
    pass_rate := round2 ((pc : ℚ) / (total : ℚ) * 100)
    overall_verdict := if fc = 0 then "PASS" else "FAIL" }

/-- The failures the pipeline can raise: the two ValueError messages of
validate_csv (the missing-columns message carries a set, mirroring the
Python set difference; the must-be-numeric message carries the column
name), and the ZeroDivisionError the summary division raises on an empty
table. -/
inductive PyError where
  | schemaError : Finset String → PyError
  | typeError : String → PyError
  | zeroDivisionError : PyError
deriving DecidableEq

/-- engine.py, evaluate: statuses are assigned row by row, the summary is
computed, and the division pass_count / total raises ZeroDivisionError
when the table has no rows (both counts are Python ints). -/
def evaluate (rows : List Row) : Except PyError (List EvalRow × Summary) :=
  let ers := evalRows rows
  if rows.length = 0 then Except.error PyError.zeroDivisionError
  else Except.ok (ers, mkSummary ers)

/-- A raw CSV cell as read_csv sees it: empty (a missing value, becomes
NaN), numeric text (parses as a number), one of the default NA tokens
(the texts NA, NaN, null, n/a and the like, also read as a missing
value), boolean text (True or False), or any other text. -/
inductive Cell where
  | blank : Cell
  | num : ℚ → Cell
  | natoken : Cell
  | booltext : Bool → Cell
  | text : String → Cell
deriving DecidableEq

/-- Whether a cell parses as a number. -/
def cellIsNumber : Cell → Bool
  | Cell.num _ => true
  | _ => false

/-- Whether read_csv reads the cell as a missing value (NaN): an empty
field or one of the default NA tokens. -/
def cellIsMissing : Cell → Bool
  | Cell.blank => true
  | Cell.natoken => true
  | _ => false

/-- Whether the cell is boolean text. -/
def cellIsBool : Cell → Bool
  | Cell.booltext _ => true
  | _ => false

/-- A CSV file as loaded by pandas read_csv: the header row and the data
rows. -/
structure RawTable where
  header : List String
  rows : List (List Cell)
deriving DecidableEq

/-- validator.py, REQUIRED_COLUMNS. -/
def REQUIRED_COLUMNS : Finset String :=
  {"sample_id", "test_name", "value", "lower_limit", "upper_limit"}

/-- Column access df[c]: the cells under header column c, in row order
(a missing cell in a short row reads as blank/NaN). -/
def getCol (tbl : RawTable) (c : String) : List Cell :=
  match tbl.header.findIdx? (fun h => h == c) with
  | none => []
  | some i => tbl.rows.map (fun r => r.getD i Cell.blank)

/-- pandas dtype inference of read_csv composed with
pd.api.types.is_numeric_dtype. A column infers int64/float64 when it has
at least one row and every cell is a number or a missing value (empty or
an NA token; the missing values become NaN and the column stays
numeric), and it infers bool when it has at least one row and every cell
is boolean text with no missing value; is_numeric_dtype accepts int64,
float64 and also bool. Everything else, in particular every zero-row
column (no data to infer from) and any column holding other text, is
object dtype, which is not numeric. -/
def numericDtype (col : List Cell) : Bool :=
  !col.isEmpty &&
    (col.all (fun c => cellIsNumber c || cellIsMissing c) || col.all cellIsBool)

/-- validator.py, validate_csv: the set of required columns missing from
the header is computed first and reported as one error; then the three
numeric columns are checked for a numeric dtype in the fixed order
value, lower_limit, upper_limit, the first non-numeric one being
reported; otherwise the loaded table is returned unchanged. -/
def validate_csv (tbl : RawTable) : Except PyError RawTable :=
  let missing := REQUIRED_COLUMNS.filter (fun c => c ∉ tbl.header)
  if missing ≠ ∅ then Except.error (PyError.schemaError missing)
  else if !numericDtype (getCol tbl "value") then Except.error (PyError.typeError "value")
  else if !numericDtype (getCol tbl "lower_limit") then Except.error (PyError.typeError "lower_limit")
  else if !numericDtype (getCol tbl "upper_limit") then Except.error (PyError.typeError "upper_limit")
  else Except.ok tbl

/-- Conversion of a validated numeric-dtype cell to the evaluator's
number type: missing values (empty or NA-token cells) are NaN, and the
booleans of a bool column compare as 1 and 0 in NumPy arithmetic.
(Other text cannot reach the evaluator: the numeric-dtype check rejects
it.) -/
def cellNum : Cell → PdNum
  | Cell.num q => PdNum.val q
  | Cell.booltext b => PdNum.val (if b then 1 else 0)
  | _ => PdNum.nan

/-- Conversion of a cell of a string column to a string. -/
def cellStr : Cell → String
  | Cell.text s => s
  | Cell.num q => toString q
  | Cell.booltext b => if b then "True" else "False"
  | _ => ""

/-- The cell of row r under header column c. -/
def fieldCell (header : List String) (r : List Cell) (c : String) : Cell :=
  match header.findIdx? (fun h => h == c) with
  | none => Cell.blank
  | some i => r.getD i Cell.blank

/-- The structured rows of a loaded table, one per data row. -/
def rowsOfTable (tbl : RawTable) : List Row :=
  tbl.rows.map (fun r =>
    { sample_id := cellStr (fieldCell tbl.header r "sample_id")
      test_name := cellStr (fieldCell tbl.header r "test_name")
      value := cellNum (fieldCell tbl.header r "value")
      lower_limit := cellNum (fieldCell tbl.header r "lower_limit")
      upper_limit := cellNum (fieldCell tbl.header r "upper_limit")
      unit := cellStr (fieldCell tbl.header r "unit") })

/-- pdf_report.py, build_pdf_report, modelled at pipeline level: the
result (success or the propagated error) paired with the list of files
written. validate_csv runs first, then evaluate; a raised error
propagates before any chart or the PDF is produced, because the chart
calls and doc.build come after both in the function body, so on failure
nothing is written. On success the two chart images and the PDF are
written. -/
def build_pdf_report (tbl : RawTable) : Except PyError Unit × List String :=
  match validate_csv tbl with
  | Except.error e => (Except.error e, [])
  | Except.ok t =>
    match evaluate (rowsOfTable t) with
    | Except.error e => (Except.error e, [])
    | Except.ok _ => (Except.ok (), ["histogram.png", "scatter.png", "report.pdf"])

/-- The two rows of the end-to-end scenario in the spec, used as concrete
inputs for witnesses. -/
def rowA : Row :=
  { sample_id := "A", test_name := "T1", value := PdNum.val 5
    lower_limit := PdNum.val 0, upper_limit := PdNum.val 10, unit := "V" }

/-- A failing concrete row: value above the upper limit. -/
def rowB : Row :=
  { sample_id := "B", test_name := "T1", value := PdNum.val 15
    lower_limit := PdNum.val 0, upper_limit := PdNum.val 10, unit := "V" }

theorem PdNum.le_nan (x : PdNum) : PdNum.le x PdNum.nan = false := by
  cases x <;> rfl

theorem PdNum.nan_le (x : PdNum) : PdNum.le PdNum.nan x = false := rfl

theorem rowStatus_pass_or_fail (r : Row) : rowStatus r = "PASS" ∨ rowStatus r = "FAIL" := by
  unfold rowStatus
  split <;> simp

theorem rowStatus_eq_pass_iff (r : Row) (l v u : ℚ)
    (hl : r.lower_limit = PdNum.val l) (hv : r.value = PdNum.val v)
    (hu : r.upper_limit = PdNum.val u) :
    rowStatus r = "PASS" ↔ l ≤ v ∧ v ≤ u := by
  rw [rowStatus, hl, hv, hu]
  by_cases h1 : l ≤ v <;> by_cases h2 : v ≤ u <;> simp [PdNum.le, h1, h2]

theorem mem_evalRows (rows : List Row) (er : EvalRow) (h : er ∈ evalRows rows) :
    er.toRow ∈ rows ∧ er.status = rowStatus er.toRow := by
  rcases List.mem_map.mp h with ⟨r, hr, rfl⟩
  exact ⟨hr, rfl⟩

theorem evalRows_toRow (rows : List Row) : (evalRows rows).map EvalRow.toRow = rows := by
  induction rows with
  | nil => rfl
  | cons r t ih => simpa [evalRows] using ih

theorem evaluate_ok (rows : List Row) (ers : List EvalRow) (s : Summary)
    (h : evaluate rows = Except.ok (ers, s)) :
    rows ≠ [] ∧ ers = evalRows rows ∧ s = mkSummary (evalRows rows) := by
  unfold evaluate at h
  split_ifs at h with hz
  simp only [Except.ok.injEq, Prod.mk.injEq] at h
  exact ⟨fun hnil => hz (by simp [hnil]), h.1.symm, h.2.symm⟩

theorem count_pass_add_count_fail (ers : List EvalRow)
    (h : ∀ er ∈ ers, er.status = "PASS" ∨ er.status = "FAIL") :
    (ers.filter (fun er => er.status == "PASS")).length
      + (ers.filter (fun er => er.status == "FAIL")).length = ers.length := by
  induction ers with
  | nil => rfl
  | cons a t ih =>
    have ha := h a (by simp)
    have ht := ih (fun er hm => h er (List.mem_cons_of_mem _ hm))
    rcases ha with ha | ha <;> simp [List.filter_cons, ha] <;> omega

theorem roundHalfEven_close (q : ℚ) :
    q - 1 / 2 ≤ (roundHalfEven q : ℚ) ∧ (roundHalfEven q : ℚ) ≤ q + 1 / 2 := by
  have h1 : (⌊q⌋ : ℚ) ≤ q := Int.floor_le q
  have h2 : q < ⌊q⌋ + 1 := Int.lt_floor_add_one q
  unfold roundHalfEven
  split_ifs with ha hb hc <;> constructor <;> push_cast <;> linarith

theorem roundHalfEven_tie (q : ℚ) (h : q - ⌊q⌋ = 1 / 2) : roundHalfEven q % 2 = 0 := by
  unfold roundHalfEven
  split_ifs with ha hb hc
  · linarith
  · linarith
  · exact hc
  · omega

theorem round2_spec (q : ℚ) :
    ∃ k : ℤ, round2 q = (k : ℚ) / 100 ∧ |q - round2 q| ≤ 1 / 200 ∧
      (q * 100 - ⌊q * 100⌋ = 1 / 2 → k % 2 = 0) := by
  refine ⟨roundHalfEven (q * 100), rfl, ?_, roundHalfEven_tie (q * 100)⟩
  obtain ⟨hl, hu⟩ := roundHalfEven_close (q * 100)
  rw [abs_le]
  unfold round2
  constructor <;> linarith

theorem round2_bounds (q : ℚ) (h0 : 0 ≤ q) (h100 : q ≤ 100) :
    0 ≤ round2 q ∧ round2 q ≤ 100 := by
  obtain ⟨hl, hu⟩ := roundHalfEven_close (q * 100)
  have hk0 : (0 : ℤ) ≤ roundHalfEven (q * 100) := by
    have hgt : (-1 : ℚ) < (roundHalfEven (q * 100) : ℚ) := by linarith
    have : (-1 : ℤ) < roundHalfEven (q * 100) := by exact_mod_cast hgt
    omega
  have hk1 : roundHalfEven (q * 100) ≤ 10000 := by
    have hlt : (roundHalfEven (q * 100) : ℚ) < 10001 := by linarith
    have : roundHalfEven (q * 100) < (10001 : ℤ) := by exact_mod_cast hlt
    omega
  have hc0 : (0 : ℚ) ≤ (roundHalfEven (q * 100) : ℚ) := by exact_mod_cast hk0
  have hc1 : (roundHalfEven (q * 100) : ℚ) ≤ 10000 := by exact_mod_cast hk1
  unfold round2
  constructor <;> linarith

/-- C1: every row of the evaluated table gets status PASS or FAIL, and when
its value and both limits are actual numbers the status is PASS exactly when
lower_limit <= value <= upper_limit, both boundary cases (value equal to
either limit) included; every other such row gets FAIL. -/
theorem c1_pass_iff_within_limits (rows : List Row) (er : EvalRow)
    (hmem : er ∈ evalRows rows) :
    (er.status = "PASS" ∨ er.status = "FAIL") ∧
    (∀ l v u : ℚ, er.lower_limit = PdNum.val l → er.value = PdNum.val v →
      er.upper_limit = PdNum.val u → (er.status = "PASS" ↔ l ≤ v ∧ v ≤ u)) := by
  obtain ⟨hrow, hst⟩ := mem_evalRows rows er hmem
  refine ⟨hst ▸ rowStatus_pass_or_fail er.toRow, ?_⟩
  intro l v u hl hv hu
  rw [hst]
  exact rowStatus_eq_pass_iff er.toRow l v u hl hv hu

/-- C1 witness: the boundary-inclusive iff instantiated at the concrete row
with value 5 and limits 0 and 10. -/
theorem c1_witness : rowStatus rowA = "PASS" ↔ (0 : ℚ) ≤ 5 ∧ (5 : ℚ) ≤ 10 :=
  (c1_pass_iff_within_limits [rowA] { toRow := rowA, status := rowStatus rowA }
    (by simp [evalRows])).2 0 5 10 rfl rfl rfl

/-- C2: for every table the evaluator accepts, the summary satisfies
pass_count + fail_count = total, total is the row count, the pass rate lies
between 0 and 100, and the overall verdict is PASS exactly when fail_count
is zero. -/
theorem c2_summary_invariants (rows : List Row) (ers : List EvalRow) (s : Summary)
    (h : evaluate rows = Except.ok (ers, s)) :
    s.pass_count + s.fail_count = s.total ∧ s.total = rows.length ∧
    (0 ≤ s.pass_rate ∧ s.pass_rate ≤ 100) ∧
    (s.overall_verdict = "PASS" ↔ s.fail_count = 0) := by
  obtain ⟨hne, hers, hs⟩ := evaluate_ok rows ers s h
  subst hs
  have hall : ∀ er ∈ evalRows rows, er.status = "PASS" ∨ er.status = "FAIL" :=
    fun er hm => (mem_evalRows rows er hm).2 ▸ rowStatus_pass_or_fail er.toRow
  have hsum := count_pass_add_count_fail (evalRows rows) hall
  have hlen : (evalRows rows).length = rows.length := by simp [evalRows]
  have hpc : ((evalRows rows).filter (fun er => er.status == "PASS")).length
      ≤ (evalRows rows).length := List.length_filter_le _ _
  have htpos : 0 < rows.length := by
    cases rows with
    | nil => exact absurd rfl hne
    | cons a t => simp
  refine ⟨by simpa [mkSummary] using hsum, by simpa [mkSummary] using hlen, ?_, ?_⟩
  · have hq0 : (0 : ℚ) ≤ ((( evalRows rows).filter (fun er => er.status == "PASS")).length : ℚ)
        / ((evalRows rows).length : ℚ) * 100 := by positivity
    have hq1 : ((( evalRows rows).filter (fun er => er.status == "PASS")).length : ℚ)
        / ((evalRows rows).length : ℚ) * 100 ≤ 100 := by
      have hpos : (0 : ℚ) < ((evalRows rows).length : ℚ) := by
        rw [hlen]; exact_mod_cast htpos
      have hle : ((( evalRows rows).filter (fun er => er.status == "PASS")).length : ℚ)
          ≤ ((evalRows rows).length : ℚ) := by exact_mod_cast hpc
      have hdiv : ((( evalRows rows).filter (fun er => er.status == "PASS")).length : ℚ)
          / ((evalRows rows).length : ℚ) ≤ 1 := by
        rw [div_le_one hpos]; exact hle
      linarith
    have := round2_bounds _ hq0 hq1
    simpa [mkSummary] using this
  · simp only [mkSummary]
    split_ifs with hfc <;> simp [hfc]

/-- C2 witness: the invariants at the two-row scenario table (one passing
row, one failing row). -/
theorem c2_witness :
    (mkSummary (evalRows [rowA, rowB])).pass_count
        + (mkSummary (evalRows [rowA, rowB])).fail_count
        = (mkSummary (evalRows [rowA, rowB])).total ∧
    (mkSummary (evalRows [rowA, rowB])).total = [rowA, rowB].length ∧
    (0 ≤ (mkSummary (evalRows [rowA, rowB])).pass_rate ∧
      (mkSummary (evalRows [rowA, rowB])).pass_rate ≤ 100) ∧
    ((mkSummary (evalRows [rowA, rowB])).overall_verdict = "PASS" ↔
      (mkSummary (evalRows [rowA, rowB])).fail_count = 0) :=
  c2_summary_invariants [rowA, rowB] (evalRows [rowA, rowB])
    (mkSummary (evalRows [rowA, rowB])) (by simp [evaluate])

/-- C3: on a validated table with zero rows the evaluator raises
ZeroDivisionError (the summary division divides by the total
unconditionally) and never returns a summary. -/
theorem c3_empty_table_error (rows : List Row) (h : rows.length = 0) :
    evaluate rows = Except.error PyError.zeroDivisionError ∧
    ∀ p : List EvalRow × Summary, evaluate rows ≠ Except.ok p := by
  refine ⟨by simp [evaluate, h], fun p => by simp [evaluate, h]⟩

/-- C3 witness: the error at the concrete empty table. -/
theorem c3_witness : evaluate ([] : List Row) = Except.error PyError.zeroDivisionError :=
  (c3_empty_table_error [] rfl).1

/-- C6: the evaluator is idempotent. A second run on the table the first run
produced (the same rows, now carrying a status column that the second run
overwrites) returns the same evaluated rows and an identical summary. -/
theorem c6_idempotent (rows : List Row) (ers : List EvalRow) (s : Summary)
    (h : evaluate rows = Except.ok (ers, s)) :
    evaluate (ers.map EvalRow.toRow) = Except.ok (ers, s) := by
  obtain ⟨hne, hers, hs⟩ := evaluate_ok rows ers s h
  subst hers
  rw [evalRows_toRow]
  exact h

/-- C6 witness: idempotence at the two-row scenario table. -/
theorem c6_witness :
    evaluate ((evalRows [rowA, rowB]).map EvalRow.toRow) =
      Except.ok (evalRows [rowA, rowB], mkSummary (evalRows [rowA, rowB])) :=
  c6_idempotent [rowA, rowB] (evalRows [rowA, rowB]) (mkSummary (evalRows [rowA, rowB]))
    (by simp [evaluate])

/-- C7: evaluation only adds the status column. The evaluated table has the
same length as the input; at every index the underlying row (all fields
other than status) is the input row unchanged and the status is computed
from that row alone; and the status function is insensitive to every field
other than value, lower_limit, upper_limit. -/
theorem c7_frame (rows : List Row) :
    (evalRows rows).length = rows.length ∧
    (∀ i : ℕ, ((evalRows rows)[i]?).map EvalRow.toRow = rows[i]? ∧
      ((evalRows rows)[i]?).map EvalRow.status = (rows[i]?).map rowStatus) ∧
    (∀ r₁ r₂ : Row, r₁.value = r₂.value → r₁.lower_limit = r₂.lower_limit →
      r₁.upper_limit = r₂.upper_limit → rowStatus r₁ = rowStatus r₂) := by
  refine ⟨by simp [evalRows], fun i => ⟨?_, ?_⟩, fun r₁ r₂ hv hl hu => ?_⟩
  · cases hg : rows[i]? <;> simp [evalRows, List.getElem?_map, hg]
  · cases hg : rows[i]? <;> simp [evalRows, List.getElem?_map, hg]
  · unfold rowStatus
    rw [hv, hl, hu]

/-- C8: for every accepted table the pass rate is the exact rate
pass_count / total * 100 rounded to exactly two decimal places: it is an
integer multiple of 1/100, differs from the exact rate by at most 1/200,
and on an exact half-way tie the kept multiple is even (round half to
even, the rounding of the implementation). -/
theorem c8_pass_rate_rounding (rows : List Row) (ers : List EvalRow) (s : Summary)
    (h : evaluate rows = Except.ok (ers, s)) :
    ∃ k : ℤ, s.pass_rate = (k : ℚ) / 100 ∧
      |(s.pass_count : ℚ) / (s.total : ℚ) * 100 - s.pass_rate| ≤ 1 / 200 ∧
      ((s.pass_count : ℚ) / (s.total : ℚ) * 100 * 100
          - ⌊(s.pass_count : ℚ) / (s.total : ℚ) * 100 * 100⌋ = 1 / 2 → k % 2 = 0) := by
  obtain ⟨hne, hers, hs⟩ := evaluate_ok rows ers s h
  have hrate : s.pass_rate = round2 ((s.pass_count : ℚ) / (s.total : ℚ) * 100) := by
    rw [hs]
    rfl
  obtain ⟨k, hk, hclose, htie⟩ := round2_spec ((s.pass_count : ℚ) / (s.total : ℚ) * 100)
  refine ⟨k, by rw [hrate, hk], by rw [hrate]; exact hclose, htie⟩

/-- C8 witness: the rounding property at the two-row scenario table. -/
theorem c8_witness :
    ∃ k : ℤ, (mkSummary (evalRows [rowA, rowB])).pass_rate = (k : ℚ) / 100 ∧
      |((mkSummary (evalRows [rowA, rowB])).pass_count : ℚ)
          / ((mkSummary (evalRows [rowA, rowB])).total : ℚ) * 100
          - (mkSummary (evalRows [rowA, rowB])).pass_rate| ≤ 1 / 200 ∧
      (((mkSummary (evalRows [rowA, rowB])).pass_count : ℚ)
          / ((mkSummary (evalRows [rowA, rowB])).total : ℚ) * 100 * 100
          - ⌊((mkSummary (evalRows [rowA, rowB])).pass_count : ℚ)
              / ((mkSummary (evalRows [rowA, rowB])).total : ℚ) * 100 * 100⌋ = 1 / 2
        → k % 2 = 0) :=
  c8_pass_rate_rounding [rowA, rowB] (evalRows [rowA, rowB])
    (mkSummary (evalRows [rowA, rowB])) (by simp [evaluate])

theorem required_filter_eq_sdiff (tbl : RawTable) :
    REQUIRED_COLUMNS.filter (fun c => c ∉ tbl.header) = REQUIRED_COLUMNS \ tbl.header.toFinset := by
  ext c
  simp [List.mem_toFinset]

theorem numericDtype_iff_cells (col : List Cell) :
    numericDtype col = true ↔
      col ≠ [] ∧
      ((∀ c ∈ col, cellIsNumber c = true ∨ cellIsMissing c = true) ∨
        (∀ c ∈ col, cellIsBool c = true)) := by
  simp [numericDtype, List.all_eq_true, List.isEmpty_iff]

theorem validate_csv_of_no_missing (tbl : RawTable)
    (hreq : REQUIRED_COLUMNS \ tbl.header.toFinset = ∅) :
    validate_csv tbl =
      (if !numericDtype (getCol tbl "value") then Except.error (PyError.typeError "value")
       else if !numericDtype (getCol tbl "lower_limit") then Except.error (PyError.typeError "lower_limit")
       else if !numericDtype (getCol tbl "upper_limit") then Except.error (PyError.typeError "upper_limit")
       else Except.ok tbl) := by
  have hmiss : REQUIRED_COLUMNS.filter (fun c => c ∉ tbl.header) = ∅ :=
    (required_filter_eq_sdiff tbl).trans hreq
  simp [validate_csv, hmiss]

theorem mem_header_of_required (tbl : RawTable)
    (hreq : REQUIRED_COLUMNS \ tbl.header.toFinset = ∅)
    (c : String) (hc : c ∈ REQUIRED_COLUMNS) : c ∈ tbl.header := by
  have hsub := Finset.sdiff_eq_empty_iff_subset.mp hreq
  simpa [List.mem_toFinset] using hsub hc

theorem getCol_ne_nil (tbl : RawTable) (c : String) (hc : c ∈ tbl.header)
    (hrows : tbl.rows ≠ []) : getCol tbl c ≠ [] := by
  unfold getCol
  cases hf : tbl.header.findIdx? (fun h => h == c) with
  | none =>
    have := List.findIdx?_eq_none_iff.mp hf c hc
    simp at this
  | some i =>
    intro h
    exact hrows (List.map_eq_nil_iff.mp h)

theorem validate_csv_ok_of_cells (tbl : RawTable)
    (hreq : REQUIRED_COLUMNS \ tbl.header.toFinset = ∅)
    (hrows : tbl.rows ≠ [])
    (hcells : ∀ col ∈ (["value", "lower_limit", "upper_limit"] : List String),
      ∀ c ∈ getCol tbl col, cellIsNumber c = true ∨ c = Cell.blank) :
    validate_csv tbl = Except.ok tbl := by
  have hnum : ∀ col ∈ (["value", "lower_limit", "upper_limit"] : List String),
      numericDtype (getCol tbl col) = true := by
    intro col hcol
    rw [numericDtype_iff_cells]
    have hmem : col ∈ REQUIRED_COLUMNS := by
      simp only [List.mem_cons, List.not_mem_nil, or_false] at hcol
      rcases hcol with rfl | rfl | rfl <;> decide
    refine ⟨getCol_ne_nil tbl col (mem_header_of_required tbl hreq col hmem) hrows,
      Or.inl ?_⟩
    intro c hc
    rcases hcells col hcol c hc with h | h
    · exact Or.inl h
    · exact Or.inr (by rw [h]; rfl)
  have hv := hnum "value" (by simp)
  have hl := hnum "lower_limit" (by simp)
  have hu := hnum "upper_limit" (by simp)
  rw [validate_csv_of_no_missing tbl hreq]
  simp [hv, hl, hu]

/-- C4: when at least one required column is missing from the header,
validation fails with the missing-columns error carrying exactly the set
difference of the required set and the header columns (extra or unknown
columns cannot change this set); when no required column is missing, the
missing-columns error is never raised. -/
theorem c4_missing_columns (tbl : RawTable) :
    (REQUIRED_COLUMNS \ tbl.header.toFinset ≠ ∅ →
      validate_csv tbl = Except.error (PyError.schemaError (REQUIRED_COLUMNS \ tbl.header.toFinset))) ∧
    (REQUIRED_COLUMNS \ tbl.header.toFinset = ∅ →
      ∀ m : Finset String, validate_csv tbl ≠ Except.error (PyError.schemaError m)) := by
  have hf := required_filter_eq_sdiff tbl
  constructor
  · intro hne
    simp [validate_csv, hf, hne]
  · intro hemp m hcontra
    rw [validate_csv_of_no_missing tbl hemp] at hcontra
    split_ifs at hcontra <;> simp_all

/-- A table with all required columns whose value column holds an empty
cell. -/
def blankCellTable : RawTable :=
  { header := ["sample_id", "test_name", "value", "lower_limit", "upper_limit"]
    rows := [[Cell.text "A", Cell.text "T1", Cell.blank, Cell.num 0, Cell.num 10]] }

/-- A table with all required columns whose value column holds an NA
token (non-empty text such as NA or NaN that read_csv reads as a missing
value). -/
def naCellTable : RawTable :=
  { header := ["sample_id", "test_name", "value", "lower_limit", "upper_limit"]
    rows := [[Cell.text "A", Cell.text "T1", Cell.natoken, Cell.num 0, Cell.num 10]] }

/-- A header-only CSV: all required columns and no data rows, so every
column loads with object dtype. -/
def headerOnlyTable : RawTable :=
  { header := ["sample_id", "test_name", "value", "lower_limit", "upper_limit"]
    rows := [] }

/-- C5 counterexample: the claim as stated is false on the code in both
directions. blankCellTable and naCellTable each have every required
column and a cell of the value column that does not parse as a number
(an empty cell, and a non-empty NA token), yet validation succeeds,
because those cells load as NaN and the column dtype stays numeric; and
in headerOnlyTable every cell of the three numeric columns parses as a
number (there are no cells at all), yet validation fails naming value,
because a zero-row column loads with object dtype. -/
theorem c5_counterexample :
    (REQUIRED_COLUMNS \ blankCellTable.header.toFinset = ∅ ∧
      Cell.blank ∈ getCol blankCellTable "value" ∧
      cellIsNumber Cell.blank = false ∧
      validate_csv blankCellTable = Except.ok blankCellTable) ∧
    (REQUIRED_COLUMNS \ naCellTable.header.toFinset = ∅ ∧
      Cell.natoken ∈ getCol naCellTable "value" ∧
      cellIsNumber Cell.natoken = false ∧
      validate_csv naCellTable = Except.ok naCellTable) ∧
    (REQUIRED_COLUMNS \ headerOnlyTable.header.toFinset = ∅ ∧
      (∀ c ∈ getCol headerOnlyTable "value", cellIsNumber c = true) ∧
      (∀ c ∈ getCol headerOnlyTable "lower_limit", cellIsNumber c = true) ∧
      (∀ c ∈ getCol headerOnlyTable "upper_limit", cellIsNumber c = true) ∧
      validate_csv headerOnlyTable = Except.error (PyError.typeError "value")) :=
  ⟨⟨by decide, by decide, rfl, rfl⟩,
   ⟨by decide, by decide, rfl, rfl⟩,
   ⟨by decide, by decide, by decide, by decide, rfl⟩⟩

/-- C5 amended: with all required columns present, validation succeeds
exactly when each of value, lower_limit and upper_limit loads with a
numeric dtype: the column is non-empty (the table has at least one data
row) and either every cell parses as a number or is a missing value
(empty or an NA token, loaded as NaN), or every cell is boolean text
(a bool column, which is_numeric_dtype also accepts). A column that is
not numeric in this sense makes validation fail with the must-be-numeric
error naming the first such column in the order value, lower_limit,
upper_limit. -/
theorem c5_amended_numeric_check (tbl : RawTable)
    (hreq : REQUIRED_COLUMNS \ tbl.header.toFinset = ∅) :
    (validate_csv tbl = Except.ok tbl ↔
      ∀ col ∈ (["value", "lower_limit", "upper_limit"] : List String),
        getCol tbl col ≠ [] ∧
        ((∀ c ∈ getCol tbl col, cellIsNumber c = true ∨ cellIsMissing c = true) ∨
          (∀ c ∈ getCol tbl col, cellIsBool c = true))) ∧
    (numericDtype (getCol tbl "value") = false →
      validate_csv tbl = Except.error (PyError.typeError "value")) ∧
    (numericDtype (getCol tbl "value") = true →
      numericDtype (getCol tbl "lower_limit") = false →
      validate_csv tbl = Except.error (PyError.typeError "lower_limit")) ∧
    (numericDtype (getCol tbl "value") = true →
      numericDtype (getCol tbl "lower_limit") = true →
      numericDtype (getCol tbl "upper_limit") = false →
      validate_csv tbl = Except.error (PyError.typeError "upper_limit")) := by
  have hrw := validate_csv_of_no_missing tbl hreq
  refine ⟨?_, ?_, ?_, ?_⟩
  · rw [hrw]
    constructor
    · intro hok col hcol
      rw [← numericDtype_iff_cells]
      have hv : numericDtype (getCol tbl "value") = true := by
        by_contra hc
        rw [Bool.not_eq_true] at hc
        simp [hc] at hok
      have hl : numericDtype (getCol tbl "lower_limit") = true := by
        by_contra hc
        rw [Bool.not_eq_true] at hc
        simp [hc, hv] at hok
      have hu : numericDtype (getCol tbl "upper_limit") = true := by
        by_contra hc
        rw [Bool.not_eq_true] at hc
        simp [hc, hv, hl] at hok
      simp only [List.mem_cons, List.not_mem_nil, or_false] at hcol
      rcases hcol with rfl | rfl | rfl <;> assumption
    · intro hall
      have hv := (numericDtype_iff_cells _).mpr (hall "value" (by simp))
      have hl := (numericDtype_iff_cells _).mpr (hall "lower_limit" (by simp))
      have hu := (numericDtype_iff_cells _).mpr (hall "upper_limit" (by simp))
      simp [hv, hl, hu]
  · intro hv
    rw [hrw]
    simp [hv]
  · intro hv hl
    rw [hrw]
    simp [hv, hl]
  · intro hv hl hu
    rw [hrw]
    simp [hv, hl, hu]

/-- A table with all required columns whose value column holds non-numeric
text. -/
def textCellTable : RawTable :=
  { header := ["sample_id", "test_name", "value", "lower_limit", "upper_limit"]
    rows := [[Cell.text "A", Cell.text "T1", Cell.text "abc", Cell.num 0, Cell.num 10]] }

/-- C5 witness: the amended contract at a concrete table with a text entry
in the value column: validation fails naming value. -/
theorem c5_witness :
    validate_csv textCellTable = Except.error (PyError.typeError "value") :=
  (c5_amended_numeric_check textCellTable (by decide)).2.1 (by decide)

/-- C9: on any input where the validator or the evaluator fails, the report
builder returns exactly that failure and writes no output PDF (its artifact
list is empty). -/
theorem c9_failure_propagation (tbl : RawTable) (e : PyError)
    (h : validate_csv tbl = Except.error e ∨
      (∃ t, validate_csv tbl = Except.ok t ∧ evaluate (rowsOfTable t) = Except.error e)) :
    (build_pdf_report tbl).1 = Except.error e ∧
    "report.pdf" ∉ (build_pdf_report tbl).2 := by
  rcases h with hval | ⟨t, hval, heval⟩
  · simp [build_pdf_report, hval]
  · simp [build_pdf_report, hval, heval]

/-- A CSV with no columns at all: every required column is missing. -/
def noColumnsTable : RawTable := { header := [], rows := [] }

/-- C9 witness: the schema failure of the empty-header table propagates
through the report builder and no file is written. -/
theorem c9_witness :
    (build_pdf_report noColumnsTable).1 = Except.error (PyError.schemaError REQUIRED_COLUMNS) ∧
    "report.pdf" ∉ (build_pdf_report noColumnsTable).2 :=
  c9_failure_propagation noColumnsTable (PyError.schemaError REQUIRED_COLUMNS)
    (Or.inl (by rfl))

/-- C10: a CSV with all required columns and at least one data row whose
numeric columns hold only numbers or empty cells passes validation (an
empty cell keeps the column numeric; a column of a zero-row CSV would be
object dtype instead, see the C5 counterexample); an empty cell loads as
NaN; and a row whose value or either limit is NaN always gets status
FAIL, never PASS, because every comparison with NaN is false. -/
theorem c10_blank_cells_fail :
    (∀ tbl : RawTable, REQUIRED_COLUMNS \ tbl.header.toFinset = ∅ →
      tbl.rows ≠ [] →
      (∀ col ∈ (["value", "lower_limit", "upper_limit"] : List String),
        ∀ c ∈ getCol tbl col, cellIsNumber c = true ∨ c = Cell.blank) →
      validate_csv tbl = Except.ok tbl) ∧
    cellNum Cell.blank = PdNum.nan ∧
    (∀ r : Row, r.value = PdNum.nan ∨ r.lower_limit = PdNum.nan ∨ r.upper_limit = PdNum.nan →
      rowStatus r = "FAIL") := by
  refine ⟨validate_csv_ok_of_cells, rfl, ?_⟩
  intro r hr
  unfold rowStatus
  rcases hr with hr | hr | hr <;> rw [hr] <;> simp [PdNum.le_nan, PdNum.nan_le]
